import Mathlib

/-!
# Event handlers, worker loop and lifecycle of the `samples` controller

A shallow embedding of

* `src/pkg/handlers/handlers.go` : `handleAdd`, `handleUpdate`, `handleDelete`
* `src/pkg/controller/controller.go` : `Run`, `runWorker`, `processNextWorkItem`

Every Go function is a total Lean function that returns the sequence of
observable effects it performs (work-queue calls, cache lookups, log lines,
goroutine starts, channel operations) in program order, together with its
return value.  The collaborators the functions call but do not define (the work
queue, the informer cache, the key functions of client-go) are parameters or
answers handed in by the caller.
-/

namespace Controller

/-! ## Data model -/

/-- The part of a `*unstructured.Unstructured` the code reads:
`GetNamespace()`, `GetName()` and `GetKind()`. -/
structure Unstructured where
  Namespace : String
  Name : String
  Kind : String
deriving DecidableEq, Repr

/-- A Go `interface{}` value, by dynamic type, as far as the type assertions of
the code tell values apart. -/
inductive Value where
  /-- The nil interface value -/
  | nil : Value
  /-- A Go `string` -/
  | str (s : String) : Value
  /-- A `*unstructured.Unstructured` -/
  | unstructured (u : Unstructured) : Value
  /-- A `cache.DeletedFinalStateUnknown` with its fields `Key` and `Obj` -/
  | tombstone (Key : String) (Obj : Value) : Value
  /-- A value of any other dynamic type -/
  | other (tag : Nat) : Value
deriving DecidableEq, Repr

/-- One observable step of the program. -/
inductive Effect where
  /-- A call of `Workqueue.Get()` -/
  | Get : Effect
  /-- A call of `Queue.Add(item)` -/
  | Add (item : Value) : Effect
  /-- A call of `Workqueue.Done(item)` -/
  | Done (item : Value) : Effect
  /-- A call of `Workqueue.Forget(item)` -/
  | Forget (item : Value) : Effect
  /-- A call of `Workqueue.AddRateLimited(item)` -/
  | AddRateLimited (item : Value) : Effect
  /-- A call of `Workqueue.ShutDown()` -/
  | ShutDown : Effect
  /-- A call of `Informer.GetIndexer().GetByKey(key)` -/
  | GetByKey (key : String) : Effect
  /-- A call of `klog.InfoS(msg, ...)` or `klog.Info(msg)` -/
  | InfoS (msg : String) : Effect
  /-- A call of `klog.ErrorS(err, msg, ...)` or `klog.Error(msg)` -/
  | ErrorS (msg : String) : Effect
  /-- A call of `time.Sleep(ms * time.Millisecond)` -/
  | Sleep (ms : Nat) : Effect
  /-- The statement `go c.Informer.Run(c.StopCh)` -/
  | goInformerRun : Effect
  /-- A call of `cache.WaitForCacheSync(c.StopCh, c.Informer.HasSynced)` with its result -/
  | WaitForCacheSync (ok : Bool) : Effect
  /-- The statement `go func(id int) {...}(workerID)` : a worker goroutine is started -/
  | goWorker (id : Int) : Effect
  /-- The receive `<-c.StopCh` has returned -/
  | recvStopCh : Effect
  /-- The call `close(c.StopCh)` is executed -/
  | closeStopCh : Effect
deriving DecidableEq, Repr

/-- The items passed to `Add`, in order. -/
def adds : List Effect → List Value
  | [] => []
  | Effect.Add v :: es => v :: adds es
  | _ :: es => adds es

/-- The items passed to `Forget`, in order. -/
def forgets : List Effect → List Value
  | [] => []
  | Effect.Forget v :: es => v :: forgets es
  | _ :: es => forgets es

/-- The items passed to `AddRateLimited`, in order. -/
def rateLimitedAdds : List Effect → List Value
  | [] => []
  | Effect.AddRateLimited v :: es => v :: rateLimitedAdds es
  | _ :: es => rateLimitedAdds es

/-- The calls made on the work queue after the `Get`
(`Add`, `Done`, `Forget`, `AddRateLimited`, `ShutDown`), in order. -/
def queueCalls : List Effect → List Effect
  | [] => []
  | Effect.Add v :: es => Effect.Add v :: queueCalls es
  | Effect.Done v :: es => Effect.Done v :: queueCalls es
  | Effect.Forget v :: es => Effect.Forget v :: queueCalls es
  | Effect.AddRateLimited v :: es => Effect.AddRateLimited v :: queueCalls es
  | Effect.ShutDown :: es => Effect.ShutDown :: queueCalls es
  | _ :: es => queueCalls es

/-- The error lines logged, in order. -/
def errorLogs : List Effect → List String
  | [] => []
  | Effect.ErrorS m :: es => m :: errorLogs es
  | _ :: es => errorLogs es

/-- The keys looked up in the cache, in order. -/
def lookups : List Effect → List String
  | [] => []
  | Effect.GetByKey k :: es => k :: lookups es
  | _ :: es => lookups es

/-- The number of `Get` calls. -/
def getCount : List Effect → Nat
  | [] => 0
  | Effect.Get :: es => getCount es + 1
  | _ :: es => getCount es

/-- The ordinals of the worker goroutines started, in order. -/
def startedWorkers : List Effect → List Int
  | [] => []
  | Effect.goWorker id :: es => id :: startedWorkers es
  | _ :: es => startedWorkers es

/-- The number of `ShutDown` calls. -/
def shutDownCount : List Effect → Nat
  | [] => 0
  | Effect.ShutDown :: es => shutDownCount es + 1
  | _ :: es => shutDownCount es

/-- The number of `close(c.StopCh)` executed. -/
def closeCount : List Effect → Nat
  | [] => 0
  | Effect.closeStopCh :: es => closeCount es + 1
  | _ :: es => closeCount es

/-! ## Key functions of client-go -/

/-- Modelled from the spec: `cache.MetaNamespaceKeyFunc` of client-go, which is
not under `src/`.  The spec's data model gives the canonical key of an object as
"namespace/name", or "name" for an object without namespace; a value that
carries no object metadata has no key. -/
def MetaNamespaceKeyFunc : Value → Except String String
  | Value.unstructured u =>
    if u.Namespace.length > 0 then Except.ok (u.Namespace ++ "/" ++ u.Name)
    else Except.ok u.Name
  | _ => Except.error "object has no meta"

/-- Split a list of characters at every `sep`. -/
def splitChars (sep : Char) : List Char → List (List Char)
  | [] => [[]]
  | c :: cs =>
    if c = sep then [] :: splitChars sep cs
    else
      match splitChars sep cs with
      | [] => [[c]]
      | p :: ps => (c :: p) :: ps

/-- Modelled from the spec: `cache.SplitMetaNamespaceKey` of client-go, which is
not under `src/`.  A key is "name" or "namespace/name": one part gives an empty
namespace, two parts give namespace and name, anything else is an error. -/
def SplitMetaNamespaceKey (key : String) : Except String (String × String) :=
  match splitChars '/' key.data with
  | [name] => Except.ok ("", String.mk name)
  | [ns, name] => Except.ok (String.mk ns, String.mk name)
  | _ => Except.error "unexpected key format"

/-! ## `pkg/handlers/handlers.go` -/

/-- The method `Handler.handleAdd`.  `keyFunc` stands for `cache.MetaNamespaceKeyFunc`. -/
def handleAdd (keyFunc : Value → Except String String) (obj : Value) : List Effect :=
  match obj with
  | Value.unstructured _ =>
    match keyFunc obj with
    | Except.error _ => [Effect.ErrorS "Failed to get key from object"]
    | Except.ok key =>
      [Effect.InfoS "EVENT: Resource added → Queueing", Effect.Add (Value.str key)]
  | _ => [Effect.InfoS "EVENT: Resource added but could not convert to Unstructured"]

/-- The method `Handler.handleUpdate`.  `oldObj` is not read. -/
def handleUpdate (keyFunc : Value → Except String String) (_oldObj newObj : Value) :
    List Effect :=
  match newObj with
  | Value.unstructured _ =>
    match keyFunc newObj with
    | Except.error _ => [Effect.ErrorS "Failed to get key from object"]
    | Except.ok key =>
      [Effect.InfoS "EVENT: Resource updated → Queueing", Effect.Add (Value.str key)]
  | _ => [Effect.InfoS "EVENT: Resource updated but could not convert to Unstructured"]

/-- The end of `handleDelete`, from `if err != nil` on, given the result of the
key function. -/
def handleDeleteEnqueue (r : Except String String) : List Effect :=
  match r with
  | Except.error _ => [Effect.ErrorS "Failed to get key from object"]
  | Except.ok key =>
    [Effect.InfoS "EVENT: Resource deleted → Queueing", Effect.Add (Value.str key)]

/-- The method `Handler.handleDelete`.  `keyFunc` stands for
`cache.MetaNamespaceKeyFunc`; the last three statements are `handleDeleteEnqueue`. -/
def handleDelete (keyFunc : Value → Except String String) (obj : Value) : List Effect :=
  match obj with
  | Value.unstructured _ => handleDeleteEnqueue (keyFunc obj)
  | Value.tombstone _ inner =>
    match inner with
    | Value.unstructured _ => handleDeleteEnqueue (keyFunc inner)
    | _ => [Effect.ErrorS "Tombstone contained non-Unstructured object"]
  | _ => [Effect.ErrorS "Error decoding tombstone"]

/-! ## `pkg/controller/controller.go` : the worker -/

/-- The three results of `Informer.GetIndexer().GetByKey(key)`. -/
structure LookupResult where
  item : Value
  exists_ : Bool
  err : Option String
deriving DecidableEq, Repr

/-- The log line of the `exists` branch of the worker. -/
def processingLog (r : LookupResult) : Effect :=
  if !r.exists_ then Effect.InfoS "WORKER: Processing deleted resource"
  else
    match r.item with
    | Value.unstructured _ => Effect.InfoS "WORKER: Processing resource"
    | _ => Effect.InfoS "WORKER: Processing resource"

/-- The function literal inside `processNextWorkItem` (`err := func(obj
interface{}) error {...}(obj)`): its effects and the error it returns (`none`
is Go's `nil`).  `split` stands for `cache.SplitMetaNamespaceKey`, `getByKey`
for the informer's indexer.

The parameter `obj` of the literal is assigned anew by
`obj, exists, err := ...GetByKey(key)`: `obj` and `err` are already declared in
the scope of that statement, only `exists` is new, so from there on `obj` is
the first result of the lookup and the last `Forget(obj)` receives it. -/
def processItem (split : String → Except String (String × String))
    (getByKey : String → LookupResult) (obj : Value) : List Effect × Option String :=
  match obj with
  | Value.str key =>
    match split key with
    | Except.error _ =>
      ([Effect.InfoS "QUEUE: Item dequeued",
        Effect.ErrorS "WORKER: Invalid resource key",
        Effect.Forget obj], none)
    | Except.ok _ =>
      let r := getByKey key
      match r.err with
      | some e =>
        ([Effect.InfoS "QUEUE: Item dequeued",
          Effect.GetByKey key,
          Effect.ErrorS "WORKER: Error retrieving object from cache"], some e)
      | none =>
        let obj := r.item
        ([Effect.InfoS "QUEUE: Item dequeued",
          Effect.GetByKey key,
          processingLog r,
          Effect.Sleep 100,
          Effect.Forget obj,
          Effect.InfoS "QUEUE: Item processed successfully"], none)
  | _ =>
    ([Effect.Forget obj, Effect.ErrorS "QUEUE: Invalid item type"], none)

/-- The two results of `Workqueue.Get()`. -/
structure GetResult where
  obj : Value
  shutdown : Bool
deriving DecidableEq, Repr

/-- The method `Controller.processNextWorkItem`, given what `Workqueue.Get()` answers: its
effects and the boolean it returns.  `defer c.Workqueue.Done(obj)` runs when
the function returns, after everything else, with the `obj` that `Get`
returned. -/
def processNextWorkItem (split : String → Except String (String × String))
    (getByKey : String → LookupResult) (g : GetResult) : List Effect × Bool :=
  if g.shutdown then
    ([Effect.Get, Effect.InfoS "WORKER: Shutting down"], false)
  else
    let r := processItem split getByKey g.obj
    match r.2 with
    | some _ =>
      (Effect.Get :: r.1 ++
        [Effect.ErrorS "WORKER: Error processing item", Effect.AddRateLimited g.obj] ++
        [Effect.Done g.obj], true)
    | none =>
      (Effect.Get :: r.1 ++ [Effect.Done g.obj], true)

/-- The method `Controller.runWorker` : `for c.processNextWorkItem(id) {}`, against the
answers the queue gives to the successive `Get` calls.  The boolean tells
whether the loop has ended; when the answers run out the worker is blocked in
`Get` and the loop has not ended. -/
def runWorker (split : String → Except String (String × String))
    (getByKey : String → LookupResult) : List GetResult → List Effect × Bool
  | [] => ([], false)
  | g :: gs =>
    let r := processNextWorkItem split getByKey g
    if r.2 then
      let rest := runWorker split getByKey gs
      (r.1 ++ rest.1, rest.2)
    else (r.1, true)

/-! ## `pkg/controller/controller.go` : the lifecycle -/

/-- How a call of `Run` ends. -/
inductive Outcome where
  /-- The function returns to its caller; `Run` has no result value -/
  | returned : Outcome
  /-- A run-time panic -/
  | panicked (msg : String) : Outcome
deriving DecidableEq, Repr

/-- The state of the channel `StopCh`. -/
structure Chan where
  closed : Bool
deriving DecidableEq, Repr

/-- Go's `close(ch)` : closing a closed channel panics. -/
def closeChan (ch : Chan) : Except String Chan :=
  if ch.closed then Except.error "close of closed channel"
  else Except.ok { closed := true }

/-- The loop `for i := 0; i < numWorkers; i++ { workerID := i + 1; go ... }` of
`Run`, from the value `i` on.  `i + 1` cannot overflow, as `i < numWorkers`. -/
def startWorkers (numWorkers : Int) (i : Int) : List Effect :=
  if i < numWorkers then Effect.goWorker (i + 1) :: startWorkers numWorkers (i + 1)
  else []
termination_by (numWorkers - i).toNat
decreasing_by omega

/-- The body of `Run` up to its return, without the deferred calls. -/
def runBody (numWorkers : Int) (syncOk : Bool) : List Effect :=
  if !syncOk then
    [Effect.goInformerRun, Effect.WaitForCacheSync false,
      Effect.ErrorS "Timeout waiting for cache sync"]
  else
    [Effect.goInformerRun, Effect.WaitForCacheSync true,
      Effect.InfoS "CONTROLLER: Started successfully"] ++
    startWorkers numWorkers 0 ++ [Effect.recvStopCh]

/-- The effects and the outcome of a call of `Run`. -/
structure RunResult where
  trace : List Effect
  outcome : Outcome
deriving DecidableEq, Repr

/-- The method `Controller.Run(numWorkers)`.  `syncOk` is the answer of
`cache.WaitForCacheSync`.  `stopCh` is the state of `c.StopCh` when the body of
`Run` is left: closed when somebody else (the signal goroutine of `main`, with
`close(ctrl.StopCh)`) has closed it by then, which is how the repository makes
the sync wait return false and the receive `<-c.StopCh` return; not closed when
the wait or the receive was released by a value sent on the channel.  The
deferred calls run last in, first out: `c.Workqueue.ShutDown()`, then
`close(c.StopCh)`. -/
def Run (numWorkers : Int) (syncOk : Bool) (stopCh : Chan) : RunResult :=
  let tr := runBody numWorkers syncOk ++ [Effect.ShutDown, Effect.closeStopCh]
  match closeChan stopCh with
  | Except.error msg => { trace := tr, outcome := Outcome.panicked msg }
  | Except.ok _ => { trace := tr, outcome := Outcome.returned }

/-- All effects of an execution of `Run` : those of `Run` itself, then those of
each worker goroutine it started (`workers id` are the effects of the goroutine
with ordinal `id`).  Effects of different goroutines are not ordered against
each other here; the list serves to count calls. -/
def allEffects (r : RunResult) (workers : Int → List Effect) : List Effect :=
  r.trace ++ (startedWorkers r.trace).flatMap workers

/-! ## Concrete inputs -/

/-- The object of the spec's scenario: namespace "default", name "sample-1". -/
def sampleObject : Unstructured :=
  { Namespace := "default", Name := "sample-1", Kind := "Sample" }

/-- A cache that holds `sampleObject` under "default/sample-1" and nothing
else; no lookup fails. -/
def sampleCache (key : String) : LookupResult :=
  if key = "default/sample-1" then
    { item := Value.unstructured sampleObject, exists_ := true, err := none }
  else { item := Value.nil, exists_ := false, err := none }

/-- A cache whose every lookup fails. -/
def failingCache (_key : String) : LookupResult :=
  { item := Value.nil, exists_ := false, err := some "cache unavailable" }

/-- A key function that fails on every value. -/
def failingKeyFunc (_obj : Value) : Except String String :=
  Except.error "object has no meta"

/-! ## Lemmas on traces -/

theorem queueCalls_append (xs ys : List Effect) :
    queueCalls (xs ++ ys) = queueCalls xs ++ queueCalls ys := by
  induction xs with
  | nil => rfl
  | cons x xs ih => cases x <;> simp [queueCalls, ih]

theorem forgets_append (xs ys : List Effect) :
    forgets (xs ++ ys) = forgets xs ++ forgets ys := by
  induction xs with
  | nil => rfl
  | cons x xs ih => cases x <;> simp [forgets, ih]

theorem rateLimitedAdds_append (xs ys : List Effect) :
    rateLimitedAdds (xs ++ ys) = rateLimitedAdds xs ++ rateLimitedAdds ys := by
  induction xs with
  | nil => rfl
  | cons x xs ih => cases x <;> simp [rateLimitedAdds, ih]

theorem errorLogs_append (xs ys : List Effect) :
    errorLogs (xs ++ ys) = errorLogs xs ++ errorLogs ys := by
  induction xs with
  | nil => rfl
  | cons x xs ih => cases x <;> simp [errorLogs, ih]

theorem lookups_append (xs ys : List Effect) :
    lookups (xs ++ ys) = lookups xs ++ lookups ys := by
  induction xs with
  | nil => rfl
  | cons x xs ih => cases x <;> simp [lookups, ih]

theorem getCount_append (xs ys : List Effect) :
    getCount (xs ++ ys) = getCount xs + getCount ys := by
  induction xs with
  | nil => simp [getCount]
  | cons x xs ih =>
    cases x
    all_goals simp [getCount, ih]
    all_goals omega

theorem startedWorkers_append (xs ys : List Effect) :
    startedWorkers (xs ++ ys) = startedWorkers xs ++ startedWorkers ys := by
  induction xs with
  | nil => rfl
  | cons x xs ih => cases x <;> simp [startedWorkers, ih]

theorem shutDownCount_append (xs ys : List Effect) :
    shutDownCount (xs ++ ys) = shutDownCount xs + shutDownCount ys := by
  induction xs with
  | nil => simp [shutDownCount]
  | cons x xs ih =>
    cases x
    all_goals simp [shutDownCount, ih]
    all_goals omega

theorem closeCount_append (xs ys : List Effect) :
    closeCount (xs ++ ys) = closeCount xs + closeCount ys := by
  induction xs with
  | nil => simp [closeCount]
  | cons x xs ih =>
    cases x
    all_goals simp [closeCount, ih]
    all_goals omega

/-! ## The worker -/

/-- The processing log line is an info line, whatever the lookup gave. -/
theorem processingLog_info (r : LookupResult) :
    processingLog r = Effect.InfoS "WORKER: Processing deleted resource" ∨
      processingLog r = Effect.InfoS "WORKER: Processing resource" := by
  unfold processingLog
  cases r.exists_ <;> simp
  cases r.item <;> simp

/-- The trace of `processNextWorkItem` for a valid key whose lookup gives no
error. -/
theorem processNextWorkItem_success (split : String → Except String (String × String))
    (getByKey : String → LookupResult) (k : String) (p : String × String)
    (hs : split k = Except.ok p) (he : (getByKey k).err = none) :
    processNextWorkItem split getByKey { obj := Value.str k, shutdown := false } =
      ([Effect.Get, Effect.InfoS "QUEUE: Item dequeued", Effect.GetByKey k,
        processingLog (getByKey k), Effect.Sleep 100, Effect.Forget (getByKey k).item,
        Effect.InfoS "QUEUE: Item processed successfully", Effect.Done (Value.str k)],
       true) := by
  simp [processNextWorkItem, processItem, hs, he]

/-- The trace of `processNextWorkItem` for a valid key whose lookup gives an
error. -/
theorem processNextWorkItem_lookup_error (split : String → Except String (String × String))
    (getByKey : String → LookupResult) (k : String) (p : String × String) (e : String)
    (hs : split k = Except.ok p) (he : (getByKey k).err = some e) :
    processNextWorkItem split getByKey { obj := Value.str k, shutdown := false } =
      ([Effect.Get, Effect.InfoS "QUEUE: Item dequeued", Effect.GetByKey k,
        Effect.ErrorS "WORKER: Error retrieving object from cache",
        Effect.ErrorS "WORKER: Error processing item",
        Effect.AddRateLimited (Value.str k), Effect.Done (Value.str k)],
       true) := by
  simp [processNextWorkItem, processItem, hs, he]

/-- The inner function fails only on a string key that parses and whose lookup
gives an error; its trace then has no queue call. -/
theorem processItem_error (split : String → Except String (String × String))
    (getByKey : String → LookupResult) (obj : Value)
    (h : (processItem split getByKey obj).2 ≠ none) :
    ∃ k p e, obj = Value.str k ∧ split k = Except.ok p ∧ (getByKey k).err = some e := by
  cases obj with
  | str k =>
    cases hs : split k with
    | error e => simp [processItem, hs] at h
    | ok p =>
      cases he : (getByKey k).err with
      | none => simp [processItem, hs, he] at h
      | some e => exact ⟨k, p, e, rfl, hs, he⟩
  | nil => simp [processItem] at h
  | unstructured u => simp [processItem] at h
  | tombstone K o => simp [processItem] at h
  | other t => simp [processItem] at h

/-- Whatever was dequeued, `processNextWorkItem` returns true. -/
theorem processNextWorkItem_item_true (split : String → Except String (String × String))
    (getByKey : String → LookupResult) (v : Value) :
    (processNextWorkItem split getByKey { obj := v, shutdown := false }).2 = true := by
  unfold processNextWorkItem
  simp only [Bool.false_eq_true, if_false]
  cases (processItem split getByKey v).2 <;> rfl

/-- Every call of `processNextWorkItem` makes exactly one `Get`. -/
theorem processNextWorkItem_getCount (split : String → Except String (String × String))
    (getByKey : String → LookupResult) (g : GetResult) :
    getCount (processNextWorkItem split getByKey g).1 = 1 := by
  obtain ⟨v, sd⟩ := g
  cases sd with
  | true => simp [processNextWorkItem, getCount]
  | false =>
    cases v with
    | str k =>
      cases hs : split k with
      | error e => simp [processNextWorkItem, processItem, hs, getCount]
      | ok p =>
        cases he : (getByKey k).err with
        | none =>
          rw [processNextWorkItem_success split getByKey k p hs he]
          rcases processingLog_info (getByKey k) with h | h <;> simp [h, getCount]
        | some e =>
          rw [processNextWorkItem_lookup_error split getByKey k p e hs he]
          simp [getCount]
    | nil => simp [processNextWorkItem, processItem, getCount]
    | unstructured u => simp [processNextWorkItem, processItem, getCount]
    | tombstone K o => simp [processNextWorkItem, processItem, getCount]
    | other t => simp [processNextWorkItem, processItem, getCount]

/-- The call `processNextWorkItem` returns false exactly on the shutdown answer. -/
theorem processNextWorkItem_returns (split : String → Except String (String × String))
    (getByKey : String → LookupResult) (g : GetResult) :
    (processNextWorkItem split getByKey g).2 = !g.shutdown := by
  obtain ⟨v, sd⟩ := g
  cases sd with
  | true => simp [processNextWorkItem]
  | false => simpa using processNextWorkItem_item_true split getByKey v

/-- The loop of `runWorker` has ended exactly when one of the answers of `Get`
was the shutdown answer. -/
theorem runWorker_ends_iff (split : String → Except String (String × String))
    (getByKey : String → LookupResult) (gs : List GetResult) :
    (runWorker split getByKey gs).2 = true ↔ ∃ g, g ∈ gs ∧ g.shutdown = true := by
  induction gs with
  | nil => simp [runWorker]
  | cons g gs ih =>
    have hr := processNextWorkItem_returns split getByKey g
    cases hsd : g.shutdown with
    | true =>
      simp only [hsd, Bool.not_true] at hr
      simp [runWorker, hr, hsd]
    | false =>
      simp only [hsd, Bool.not_false] at hr
      simp [runWorker, hr, ih, hsd]

/-- The number of `Get` calls of `runWorker` : one for every answer before the
first shutdown answer, and one for the shutdown answer when the loop ends. -/
theorem runWorker_getCount (split : String → Except String (String × String))
    (getByKey : String → LookupResult) (gs : List GetResult) :
    getCount (runWorker split getByKey gs).1 =
      (gs.takeWhile (fun g => !g.shutdown)).length +
        (if (runWorker split getByKey gs).2 then 1 else 0) := by
  induction gs with
  | nil => simp [runWorker, getCount]
  | cons g gs ih =>
    have hr := processNextWorkItem_returns split getByKey g
    have hg := processNextWorkItem_getCount split getByKey g
    cases hsd : g.shutdown with
    | true =>
      simp only [hsd, Bool.not_true] at hr
      simp [runWorker, hr, hsd, hg]
    | false =>
      simp only [hsd, Bool.not_false] at hr
      simp [runWorker, hr, hsd, hg, getCount_append, ih]
      omega

/-! ## Claims on the worker -/

/-- C1, evaluated on the code: the worker dequeues the valid key
"default/sample-1", the cache holds the object (lookup without error), and the
queue calls made are `Forget` on the cached object followed by `Done` on the
key; for the valid key "default/gone", absent from the cache, they are `Forget`
on nil followed by `Done` on the key.  In neither case is the dequeued key the
argument of `Forget`. -/
theorem processNextWorkItem_forgets_lookup_result :
    queueCalls (processNextWorkItem SplitMetaNamespaceKey sampleCache
        { obj := Value.str "default/sample-1", shutdown := false }).1 =
      [Effect.Forget (Value.unstructured sampleObject),
        Effect.Done (Value.str "default/sample-1")] ∧
    queueCalls (processNextWorkItem SplitMetaNamespaceKey sampleCache
        { obj := Value.str "default/gone", shutdown := false }).1 =
      [Effect.Forget Value.nil, Effect.Done (Value.str "default/gone")] ∧
    Value.str "default/sample-1" ∉ forgets (processNextWorkItem SplitMetaNamespaceKey
        sampleCache { obj := Value.str "default/sample-1", shutdown := false }).1 ∧
    Value.str "default/gone" ∉ forgets (processNextWorkItem SplitMetaNamespaceKey
        sampleCache { obj := Value.str "default/gone", shutdown := false }).1 := by
  decide

/-- C2 as stated fails: for the dequeued key "default/sample-1" and a cache
whose lookup fails, the inner function returns an error and the queue calls are
not `Done` followed by `AddRateLimited`. -/
theorem done_before_addRateLimited_fails :
    (processItem SplitMetaNamespaceKey failingCache (Value.str "default/sample-1")).2 ≠ none ∧
    queueCalls (processNextWorkItem SplitMetaNamespaceKey failingCache
        { obj := Value.str "default/sample-1", shutdown := false }).1 ≠
      [Effect.Done (Value.str "default/sample-1"),
        Effect.AddRateLimited (Value.str "default/sample-1")] := by
  decide

/-- C2, amended: for every dequeued item whose processing fails (the inner
function returns a non-nil error), the queue calls made by
`processNextWorkItem` are `AddRateLimited(item)` followed by `Done(item)` : the
deferred `Done` comes last. -/
theorem failure_addRateLimited_then_done (split : String → Except String (String × String))
    (getByKey : String → LookupResult) (item : Value)
    (h : (processItem split getByKey item).2 ≠ none) :
    queueCalls (processNextWorkItem split getByKey { obj := item, shutdown := false }).1 =
      [Effect.AddRateLimited item, Effect.Done item] := by
  obtain ⟨k, p, e, rfl, hs, he⟩ := processItem_error split getByKey item h
  rw [processNextWorkItem_lookup_error split getByKey k p e hs he]
  rfl

/-- Witness of `failure_addRateLimited_then_done` : the key "default/sample-1"
against a cache whose lookup fails. -/
theorem failure_addRateLimited_then_done_witness :
    (processItem SplitMetaNamespaceKey failingCache (Value.str "default/sample-1")).2 ≠ none ∧
    queueCalls (processNextWorkItem SplitMetaNamespaceKey failingCache
        { obj := Value.str "default/sample-1", shutdown := false }).1 =
      [Effect.AddRateLimited (Value.str "default/sample-1"),
        Effect.Done (Value.str "default/sample-1")] :=
  ⟨by decide, failure_addRateLimited_then_done SplitMetaNamespaceKey failingCache
    (Value.str "default/sample-1") (by decide)⟩

/-- C6: `processNextWorkItem` returns false if and only if `Get` reports
shutdown, and then it makes no queue call after the `Get` (no `Done`, `Forget`
or `AddRateLimited`); for every dequeued item it returns true; the loop of
`runWorker` ends if and only if some `Get` reported shutdown, and until then
every answer of `Get` is consumed. -/
theorem worker_stops_only_on_shutdown (split : String → Except String (String × String))
    (getByKey : String → LookupResult) :
    (∀ g : GetResult, (processNextWorkItem split getByKey g).2 = false ↔ g.shutdown = true) ∧
    (∀ v : Value,
      queueCalls (processNextWorkItem split getByKey { obj := v, shutdown := true }).1 = []) ∧
    (∀ v : Value,
      (processNextWorkItem split getByKey { obj := v, shutdown := false }).2 = true) ∧
    (∀ gs : List GetResult,
      ((runWorker split getByKey gs).2 = true ↔ ∃ g, g ∈ gs ∧ g.shutdown = true) ∧
      getCount (runWorker split getByKey gs).1 =
        (gs.takeWhile (fun g => !g.shutdown)).length +
          (if (runWorker split getByKey gs).2 then 1 else 0)) := by
  refine ⟨?_, ?_, ?_, ?_⟩
  · intro g
    rw [processNextWorkItem_returns]
    cases g.shutdown <;> simp
  · intro v
    simp [processNextWorkItem, queueCalls]
  · exact processNextWorkItem_item_true split getByKey
  · intro gs
    exact ⟨runWorker_ends_iff split getByKey gs, runWorker_getCount split getByKey gs⟩

/-- C7: for a dequeued item that is not a string, and for a dequeued string key
that the split function rejects, `processNextWorkItem` calls `Forget` on that
item, then `Done` on that item, logs one error, looks nothing up in the cache,
makes no `AddRateLimited` call and returns true. -/
theorem invalid_item_forgotten_and_dropped
    (split : String → Except String (String × String))
    (getByKey : String → LookupResult) (item : Value)
    (h : (∀ s, item ≠ Value.str s) ∨ (∃ k e, item = Value.str k ∧ split k = Except.error e)) :
    queueCalls (processNextWorkItem split getByKey { obj := item, shutdown := false }).1 =
      [Effect.Forget item, Effect.Done item] ∧
    (errorLogs (processNextWorkItem split getByKey
      { obj := item, shutdown := false }).1).length = 1 ∧
    lookups (processNextWorkItem split getByKey { obj := item, shutdown := false }).1 = [] ∧
    rateLimitedAdds (processNextWorkItem split getByKey
      { obj := item, shutdown := false }).1 = [] ∧
    (processNextWorkItem split getByKey { obj := item, shutdown := false }).2 = true := by
  rcases h with h | ⟨k, e, rfl, hs⟩
  · cases item with
    | str s => exact absurd rfl (h s)
    | nil => simp [processNextWorkItem, processItem, queueCalls, errorLogs, lookups,
        rateLimitedAdds]
    | unstructured u => simp [processNextWorkItem, processItem, queueCalls, errorLogs,
        lookups, rateLimitedAdds]
    | tombstone K o => simp [processNextWorkItem, processItem, queueCalls, errorLogs,
        lookups, rateLimitedAdds]
    | other t => simp [processNextWorkItem, processItem, queueCalls, errorLogs, lookups,
        rateLimitedAdds]
  · simp [processNextWorkItem, processItem, hs, queueCalls, errorLogs, lookups,
      rateLimitedAdds]

/-- Witness of `invalid_item_forgotten_and_dropped` : an item that is not a
string, and the key "a/b/c", which `SplitMetaNamespaceKey` rejects. -/
theorem invalid_item_forgotten_and_dropped_witness :
    queueCalls (processNextWorkItem SplitMetaNamespaceKey sampleCache
        { obj := Value.other 0, shutdown := false }).1 =
      [Effect.Forget (Value.other 0), Effect.Done (Value.other 0)] ∧
    SplitMetaNamespaceKey "a/b/c" = Except.error "unexpected key format" ∧
    queueCalls (processNextWorkItem SplitMetaNamespaceKey sampleCache
        { obj := Value.str "a/b/c", shutdown := false }).1 =
      [Effect.Forget (Value.str "a/b/c"), Effect.Done (Value.str "a/b/c")] ∧
    (errorLogs (processNextWorkItem SplitMetaNamespaceKey sampleCache
      { obj := Value.str "a/b/c", shutdown := false }).1).length = 1 ∧
    lookups (processNextWorkItem SplitMetaNamespaceKey sampleCache
      { obj := Value.str "a/b/c", shutdown := false }).1 = [] ∧
    rateLimitedAdds (processNextWorkItem SplitMetaNamespaceKey sampleCache
      { obj := Value.str "a/b/c", shutdown := false }).1 = [] ∧
    (processNextWorkItem SplitMetaNamespaceKey sampleCache
      { obj := Value.str "a/b/c", shutdown := false }).2 = true :=
  ⟨(invalid_item_forgotten_and_dropped SplitMetaNamespaceKey sampleCache
      (Value.other 0) (Or.inl (fun _ h => Value.noConfusion h))).1,
   rfl,
   invalid_item_forgotten_and_dropped SplitMetaNamespaceKey sampleCache
    (Value.str "a/b/c") (Or.inr ⟨"a/b/c", "unexpected key format", rfl, rfl⟩)⟩

/-- C8: for a dequeued valid string key `k` whose cache lookup returns an
error, `processNextWorkItem` calls `AddRateLimited` exactly once, with `k`, and
makes no `Forget` call. -/
theorem lookup_error_requeues_key (split : String → Except String (String × String))
    (getByKey : String → LookupResult) (k : String) (p : String × String) (e : String)
    (hs : split k = Except.ok p) (he : (getByKey k).err = some e) :
    rateLimitedAdds (processNextWorkItem split getByKey
      { obj := Value.str k, shutdown := false }).1 = [Value.str k] ∧
    forgets (processNextWorkItem split getByKey
      { obj := Value.str k, shutdown := false }).1 = [] := by
  rw [processNextWorkItem_lookup_error split getByKey k p e hs he]
  exact ⟨rfl, rfl⟩

/-- Witness of `lookup_error_requeues_key` : the key "default/sample-1" against
a cache whose lookup fails. -/
theorem lookup_error_requeues_key_witness :
    rateLimitedAdds (processNextWorkItem SplitMetaNamespaceKey failingCache
      { obj := Value.str "default/sample-1", shutdown := false }).1 =
      [Value.str "default/sample-1"] ∧
    forgets (processNextWorkItem SplitMetaNamespaceKey failingCache
      { obj := Value.str "default/sample-1", shutdown := false }).1 = [] :=
  lookup_error_requeues_key SplitMetaNamespaceKey failingCache "default/sample-1"
    ("default", "sample-1") "cache unavailable" rfl rfl

/-! ## Claims on the event handlers -/

/-- A string has positive length exactly when it is not the empty string. -/
theorem length_pos_iff_ne_empty (s : String) : s.length > 0 ↔ s ≠ "" := by
  obtain ⟨l⟩ := s
  cases l with
  | nil => simp [String.length]
  | cons c cs =>
    simp only [String.length, List.length_cons, gt_iff_lt, Nat.zero_lt_succ, true_iff]
    intro h
    have := congrArg String.data h
    simp at this

/-- The key `MetaNamespaceKeyFunc` gives for an object: "ns/n", or "n" when the
namespace is empty. -/
theorem MetaNamespaceKeyFunc_unstructured (ns n kind : String) :
    MetaNamespaceKeyFunc (Value.unstructured { Namespace := ns, Name := n, Kind := kind }) =
      Except.ok (if ns = "" then n else ns ++ "/" ++ n) := by
  by_cases h : ns = ""
  · subst h
    rfl
  · have hpos : ns.length > 0 := (length_pos_iff_ne_empty ns).2 h
    simp [MetaNamespaceKeyFunc, h, hpos]

/-- C3: `handleDelete` on a value that is not a live Unstructured object.  A
tombstone that wraps an Unstructured object whose key can be derived gives
exactly one `Add`, with the key of the wrapped object, and no error line; a
value that is not a tombstone, or a tombstone that wraps something else, gives
no `Add` and exactly one error line. -/
theorem handleDelete_tombstone (keyFunc : Value → Except String String) (obj : Value)
    (hlive : ∀ u, obj ≠ Value.unstructured u) :
    (∀ K u key, obj = Value.tombstone K (Value.unstructured u) →
      keyFunc (Value.unstructured u) = Except.ok key →
      adds (handleDelete keyFunc obj) = [Value.str key] ∧
        errorLogs (handleDelete keyFunc obj) = []) ∧
    ((∀ K u, obj ≠ Value.tombstone K (Value.unstructured u)) →
      adds (handleDelete keyFunc obj) = [] ∧
        (errorLogs (handleDelete keyFunc obj)).length = 1) := by
  constructor
  · intro K u key ho hk
    subst ho
    simp [handleDelete, handleDeleteEnqueue, hk, adds, errorLogs]
  · intro hnt
    cases obj with
    | unstructured u => exact absurd rfl (hlive u)
    | tombstone K inner =>
      cases inner with
      | unstructured u => exact absurd rfl (hnt K u)
      | nil => simp [handleDelete, adds, errorLogs]
      | str s => simp [handleDelete, adds, errorLogs]
      | tombstone K2 o => simp [handleDelete, adds, errorLogs]
      | other t => simp [handleDelete, adds, errorLogs]
    | nil => simp [handleDelete, adds, errorLogs]
    | str s => simp [handleDelete, adds, errorLogs]
    | other t => simp [handleDelete, adds, errorLogs]

/-- Witness of `handleDelete_tombstone` : a tombstone that wraps `sampleObject`
gives one `Add` of "default/sample-1"; a tombstone that wraps a string gives no
`Add` and one error line. -/
theorem handleDelete_tombstone_witness :
    (adds (handleDelete MetaNamespaceKeyFunc
        (Value.tombstone "default/sample-1" (Value.unstructured sampleObject))) =
        [Value.str "default/sample-1"] ∧
      errorLogs (handleDelete MetaNamespaceKeyFunc
        (Value.tombstone "default/sample-1" (Value.unstructured sampleObject))) = []) ∧
    (adds (handleDelete MetaNamespaceKeyFunc
        (Value.tombstone "default/sample-1" (Value.str "gone"))) = [] ∧
      (errorLogs (handleDelete MetaNamespaceKeyFunc
        (Value.tombstone "default/sample-1" (Value.str "gone")))).length = 1) :=
  ⟨(handleDelete_tombstone MetaNamespaceKeyFunc
      (Value.tombstone "default/sample-1" (Value.unstructured sampleObject))
      (fun _ h => Value.noConfusion h)).1 "default/sample-1" sampleObject
      "default/sample-1" rfl rfl,
   (handleDelete_tombstone MetaNamespaceKeyFunc
      (Value.tombstone "default/sample-1" (Value.str "gone"))
      (fun _ h => Value.noConfusion h)).2 (by intro K u h; cases h)⟩

/-- C4: for a live Unstructured object with namespace `ns` and name `n`, each
of `handleAdd`, `handleUpdate` (for any old object) and `handleDelete` makes
exactly one `Add`, with the canonical key, "ns/n" or "n" when `ns` is empty;
with any key function, a derived key is enqueued exactly once and a failed
derivation gives no `Add` (the handlers are total: they return). -/
theorem handlers_enqueue_canonical_key (ns n kind : String) (old : Value)
    (keyFunc : Value → Except String String) :
    (adds (handleAdd MetaNamespaceKeyFunc
        (Value.unstructured { Namespace := ns, Name := n, Kind := kind })) =
        [Value.str (if ns = "" then n else ns ++ "/" ++ n)] ∧
      adds (handleUpdate MetaNamespaceKeyFunc old
        (Value.unstructured { Namespace := ns, Name := n, Kind := kind })) =
        [Value.str (if ns = "" then n else ns ++ "/" ++ n)] ∧
      adds (handleDelete MetaNamespaceKeyFunc
        (Value.unstructured { Namespace := ns, Name := n, Kind := kind })) =
        [Value.str (if ns = "" then n else ns ++ "/" ++ n)]) ∧
    (∀ key,
      keyFunc (Value.unstructured { Namespace := ns, Name := n, Kind := kind }) =
        Except.ok key →
      adds (handleAdd keyFunc
        (Value.unstructured { Namespace := ns, Name := n, Kind := kind })) =
        [Value.str key] ∧
      adds (handleUpdate keyFunc old
        (Value.unstructured { Namespace := ns, Name := n, Kind := kind })) =
        [Value.str key] ∧
      adds (handleDelete keyFunc
        (Value.unstructured { Namespace := ns, Name := n, Kind := kind })) =
        [Value.str key]) ∧
    (∀ e,
      keyFunc (Value.unstructured { Namespace := ns, Name := n, Kind := kind }) =
        Except.error e →
      adds (handleAdd keyFunc
        (Value.unstructured { Namespace := ns, Name := n, Kind := kind })) = [] ∧
      adds (handleUpdate keyFunc old
        (Value.unstructured { Namespace := ns, Name := n, Kind := kind })) = [] ∧
      adds (handleDelete keyFunc
        (Value.unstructured { Namespace := ns, Name := n, Kind := kind })) = []) := by
  have hk := MetaNamespaceKeyFunc_unstructured ns n kind
  refine ⟨?_, ?_, ?_⟩
  · simp [handleAdd, handleUpdate, handleDelete, handleDeleteEnqueue, hk, adds]
  · intro key h
    simp [handleAdd, handleUpdate, handleDelete, handleDeleteEnqueue, h, adds]
  · intro e h
    simp [handleAdd, handleUpdate, handleDelete, handleDeleteEnqueue, h, adds]

/-- Witness of `handlers_enqueue_canonical_key` : the object of namespace
"default" and name "sample-1" is enqueued as "default/sample-1" by the three
handlers, and with a key function that fails nothing is enqueued. -/
theorem handlers_enqueue_canonical_key_witness :
    (adds (handleAdd MetaNamespaceKeyFunc (Value.unstructured sampleObject)) =
        [Value.str "default/sample-1"] ∧
      adds (handleUpdate MetaNamespaceKeyFunc Value.nil (Value.unstructured sampleObject)) =
        [Value.str "default/sample-1"] ∧
      adds (handleDelete MetaNamespaceKeyFunc (Value.unstructured sampleObject)) =
        [Value.str "default/sample-1"]) ∧
    (adds (handleAdd failingKeyFunc (Value.unstructured sampleObject)) = [] ∧
      adds (handleUpdate failingKeyFunc Value.nil (Value.unstructured sampleObject)) = [] ∧
      adds (handleDelete failingKeyFunc (Value.unstructured sampleObject)) = []) :=
  ⟨(handlers_enqueue_canonical_key "default" "sample-1" "Sample" Value.nil
      MetaNamespaceKeyFunc).2.1 "default/sample-1" rfl,
   (handlers_enqueue_canonical_key "default" "sample-1" "Sample" Value.nil
      failingKeyFunc).2.2 "object has no meta" rfl⟩

/-! ## Claims on the lifecycle -/

/-- The loop of `Run` starts one goroutine for each `i` with
`i < numWorkers`, with the ordinals `i + 1`, in increasing order. -/
theorem startWorkers_eq (numWorkers : Int) :
    ∀ (k : Nat) (i : Int), (numWorkers - i).toNat = k →
      startWorkers numWorkers i =
        ((List.range k).map (fun j : Nat => i + 1 + (j : Int))).map Effect.goWorker := by
  intro k
  induction k with
  | zero =>
    intro i h
    have hge : ¬ i < numWorkers := by omega
    rw [startWorkers]
    simp [hge]
  | succ k ih =>
    intro i h
    have hlt : i < numWorkers := by omega
    rw [startWorkers]
    simp only [hlt, if_true]
    rw [ih (i + 1) (by omega), List.range_succ_eq_map]
    simp only [List.map_cons, List.map_map, Nat.cast_zero, add_zero]
    congr 1
    apply List.map_congr_left
    intro j _
    simp only [Function.comp_apply, Nat.cast_succ]
    congr 1
    ring

theorem startedWorkers_goWorker (l : List Int) :
    startedWorkers (l.map Effect.goWorker) = l := by
  induction l with
  | nil => rfl
  | cons x xs ih => simp [startedWorkers, ih]

theorem errorLogs_goWorker (l : List Int) : errorLogs (l.map Effect.goWorker) = [] := by
  induction l with
  | nil => rfl
  | cons x xs ih => simp [errorLogs, ih]

theorem getCount_goWorker (l : List Int) : getCount (l.map Effect.goWorker) = 0 := by
  induction l with
  | nil => rfl
  | cons x xs ih => simp [getCount, ih]

theorem shutDownCount_goWorker (l : List Int) :
    shutDownCount (l.map Effect.goWorker) = 0 := by
  induction l with
  | nil => rfl
  | cons x xs ih => simp [shutDownCount, ih]

theorem closeCount_goWorker (l : List Int) : closeCount (l.map Effect.goWorker) = 0 := by
  induction l with
  | nil => rfl
  | cons x xs ih => simp [closeCount, ih]

/-- The trace of `Run` is the body followed by the two deferred calls, whatever
the state of the channel. -/
theorem Run_trace (numWorkers : Int) (syncOk : Bool) (stopCh : Chan) :
    (Run numWorkers syncOk stopCh).trace =
      runBody numWorkers syncOk ++ [Effect.ShutDown, Effect.closeStopCh] := by
  unfold Run
  cases closeChan stopCh <;> rfl

/-- The outcome of `Run` depends on the state of the channel only. -/
theorem Run_outcome (numWorkers : Int) (syncOk : Bool) (stopCh : Chan) :
    (Run numWorkers syncOk stopCh).outcome =
      if stopCh.closed then Outcome.panicked "close of closed channel"
      else Outcome.returned := by
  obtain ⟨c⟩ := stopCh
  cases c <;> simp [Run, closeChan]

/-- The effects of `Run` when the sync wait fails. -/
theorem Run_trace_abort (numWorkers : Int) (stopCh : Chan) :
    (Run numWorkers false stopCh).trace =
      [Effect.goInformerRun, Effect.WaitForCacheSync false,
        Effect.ErrorS "Timeout waiting for cache sync",
        Effect.ShutDown, Effect.closeStopCh] := by
  rw [Run_trace]
  rfl

/-- The effects of `Run` when the sync wait succeeds. -/
theorem Run_trace_started (numWorkers : Int) (stopCh : Chan) :
    (Run numWorkers true stopCh).trace =
      [Effect.goInformerRun, Effect.WaitForCacheSync true,
        Effect.InfoS "CONTROLLER: Started successfully"] ++
      ((List.range numWorkers.toNat).map (fun j : Nat => (j : Int) + 1)).map Effect.goWorker ++
      [Effect.recvStopCh, Effect.ShutDown, Effect.closeStopCh] := by
  rw [Run_trace]
  have h := startWorkers_eq numWorkers numWorkers.toNat 0 (by simp)
  simp only [zero_add] at h
  have h1 : (fun j : Nat => (1 : Int) + (j : Int)) = (fun j : Nat => (j : Int) + 1) := by
    funext j
    ring
  rw [h1] at h
  simp [runBody, h]

/-- C5: for every `numWorkers ≥ 0`.  When the sync wait fails, `Run` starts no
worker and the execution has no `Get` call, whatever worker goroutines would
do.  When it succeeds, `Run` starts exactly `numWorkers` workers, with the
ordinals 1 to `numWorkers` in this order, `Run` itself makes no `Get` call, and
the trace of `Run` splits at the sync wait that returned true with no worker
start before it. -/
theorem workers_start_after_sync (numWorkers : Int) (h : 0 ≤ numWorkers) (stopCh : Chan)
    (workers : Int → List Effect) :
    (startedWorkers (Run numWorkers false stopCh).trace = [] ∧
      getCount (allEffects (Run numWorkers false stopCh) workers) = 0) ∧
    (startedWorkers (Run numWorkers true stopCh).trace =
        (List.range numWorkers.toNat).map (fun j : Nat => (j : Int) + 1) ∧
      ((startedWorkers (Run numWorkers true stopCh).trace).length : Int) = numWorkers ∧
      getCount (Run numWorkers true stopCh).trace = 0 ∧
      ∃ pre post,
        (Run numWorkers true stopCh).trace = pre ++ Effect.WaitForCacheSync true :: post ∧
        startedWorkers pre = [] ∧
        startedWorkers post = startedWorkers (Run numWorkers true stopCh).trace) := by
  have hs : startedWorkers (Run numWorkers true stopCh).trace =
      (List.range numWorkers.toNat).map (fun j : Nat => (j : Int) + 1) := by
    rw [Run_trace_started]
    simp [-List.map_map, startedWorkers_append, startedWorkers_goWorker, startedWorkers]
  refine ⟨⟨?_, ?_⟩, hs, ?_, ?_, ?_⟩
  · rw [Run_trace_abort]
    rfl
  · unfold allEffects
    rw [Run_trace_abort]
    rfl
  · rw [hs]
    simp
    omega
  · rw [Run_trace_started]
    simp [-List.map_map, getCount_append, getCount_goWorker, getCount]
  · refine ⟨[Effect.goInformerRun],
      Effect.InfoS "CONTROLLER: Started successfully" ::
        (((List.range numWorkers.toNat).map (fun j : Nat => (j : Int) + 1)).map
          Effect.goWorker ++
        [Effect.recvStopCh, Effect.ShutDown, Effect.closeStopCh]), ?_, rfl, ?_⟩
    · rw [Run_trace_started]
      simp
    · rw [hs]
      simp [-List.map_map, startedWorkers, startedWorkers_append, startedWorkers_goWorker]

/-- Witness of `workers_start_after_sync` : `Run(2)`, as `main` calls it, with
a successful sync wait starts the workers 1 and 2. -/
theorem workers_start_after_sync_witness :
    (0 : Int) ≤ 2 ∧
    startedWorkers (Run 2 true { closed := true }).trace = [1, 2] ∧
    startedWorkers (Run 2 false { closed := true }).trace = [] ∧
    getCount (allEffects (Run 2 false { closed := true }) (fun _ => [Effect.Get])) = 0 :=
  ⟨by decide,
   (workers_start_after_sync 2 (by decide) { closed := true }
      (fun _ => [Effect.Get])).2.1.trans (by decide),
   (workers_start_after_sync 2 (by decide) { closed := true }
      (fun _ => [Effect.Get])).1.1,
   (workers_start_after_sync 2 (by decide) { closed := true }
      (fun _ => [Effect.Get])).1.2⟩

/-- C9 as stated fails: for `Run(2)`, the outcome of the call on the
startup-abort path is the same as on the path of a normal start followed by
shutdown, with the channel closed by the signal goroutine or not. -/
theorem abort_outcome_not_distinguishable :
    (Run 2 false { closed := true }).outcome = (Run 2 true { closed := true }).outcome ∧
    (Run 2 false { closed := false }).outcome = (Run 2 true { closed := false }).outcome := by
  decide

/-- C9, amended: when the sync wait returns false, `Run` logs the one error
line "Timeout waiting for cache sync" and starts no worker; `Run` has no result
value, and its call ends the same way on the abort path as on the path of a
normal start followed by shutdown, whose trace has no error line. -/
theorem abort_is_logged_not_returned (numWorkers : Int) (stopCh : Chan) :
    errorLogs (Run numWorkers false stopCh).trace = ["Timeout waiting for cache sync"] ∧
    startedWorkers (Run numWorkers false stopCh).trace = [] ∧
    errorLogs (Run numWorkers true stopCh).trace = [] ∧
    (Run numWorkers false stopCh).outcome = (Run numWorkers true stopCh).outcome := by
  refine ⟨?_, ?_, ?_, ?_⟩
  · rw [Run_trace_abort]
    rfl
  · rw [Run_trace_abort]
    rfl
  · rw [Run_trace_started]
    simp [-List.map_map, errorLogs_append, errorLogs_goWorker, errorLogs]
  · rw [Run_outcome, Run_outcome]

/-- C10, evaluated on the code: when `StopCh` has been closed by the signal
goroutine before `Run` leaves its body, on the abort path and on the normal
path alike, the deferred calls of `Run` are one `ShutDown` and then one more
`close(StopCh)`, and the call ends in the panic "close of closed channel". -/
theorem run_closes_closed_channel (numWorkers : Int) (syncOk : Bool) :
    shutDownCount (Run numWorkers syncOk { closed := true }).trace = 1 ∧
    closeCount (Run numWorkers syncOk { closed := true }).trace = 1 ∧
    (Run numWorkers syncOk { closed := true }).outcome =
      Outcome.panicked "close of closed channel" := by
  refine ⟨?_, ?_, ?_⟩
  · cases syncOk with
    | false =>
      rw [Run_trace_abort]
      rfl
    | true =>
      rw [Run_trace_started]
      simp [-List.map_map, shutDownCount_append, shutDownCount_goWorker, shutDownCount]
  · cases syncOk with
    | false =>
      rw [Run_trace_abort]
      rfl
    | true =>
      rw [Run_trace_started]
      simp [-List.map_map, closeCount_append, closeCount_goWorker, closeCount]
  · rw [Run_outcome]
    rfl

end Controller
